import Mathlib

/-!
Shallow embedding of `src/Simulation/gravitational_potential.py` from the
Restricted-3-Body-Simulator-Python repository, together with theorems that
settle the frozen claims about the potential-field evaluator.

The Python function `gravity_potential(m1, m2, m2_orbital_radius, x_points,
y_points)` first validates the masses (raising `ValueError` with a fixed
message when `m1 <= 0`, when `m2 <= 0`, or when `m2 > m1`), then evaluates a
closed-form scalar field element-wise over the two equal-shaped coordinate
grids.  Machine floats are modelled as real numbers; the 2-D numpy grids are
modelled as lists of rows; the raise/return behaviour is modelled with
`Except String`.
-/

namespace RestrictedThreeBody

/-- Exact message of the `ValueError` raised when `m1 <= 0`
(`gravitational_potential.py`, line 31). -/
def msgNonPositiveM1 : String := "The value of m1 was non-positive"

/-- Exact message of the `ValueError` raised when `m2 <= 0`
(`gravitational_potential.py`, line 34). -/
def msgNonPositiveM2 : String := "The value of m2 was non-positive"

/-- Exact message of the `ValueError` raised when `m2 > m1`
(`gravitational_potential.py`, line 37); note the leading space in the
source string. -/
def msgMassRatio : String := " The ratio of m2 to m1 was greater than 1"

/-- The scalar field computed by the body of `gravity_potential`
(`gravitational_potential.py`, lines 44-51) at a single grid point `(x, y)`:
`-0.5 * omega**2 * (x**2 + y**2) - G * (m2 / sqrt((m2*R/(m1+m2) - x)**2 + y**2)
+ m2 / sqrt((m1*R/(m1+m2) + x)**2 + y**2))` with `G = 1` and
`omega = sqrt(G*(m1+m2)/R**3)`.  Both gravitational terms use `m2` in the
numerator, exactly as written in the source. -/
noncomputable def phi (m1 m2 R x y : ℝ) : ℝ :=
  let G : ℝ := 1
  let omega : ℝ := Real.sqrt (G * (m1 + m2) / R ^ 3);
  -0.5 * omega ^ 2 * (x ^ 2 + y ^ 2) - G *
    (m2 / Real.sqrt ((m2 * R / (m1 + m2) - x) ^ 2 + y ^ 2)
      + m2 / Real.sqrt ((m1 * R / (m1 + m2) + x) ^ 2 + y ^ 2))

/-- Embedding of the whole Python function `gravity_potential`: the three
validation checks in source order, then the element-wise field evaluation
over the two grids.  Numpy's element-wise arithmetic on equal-shaped arrays
is modelled by zipping the rows and the entries of the two grids.  Real
division and `Real.sqrt` in this model are total functions, so the field
values it returns for `R ≤ 0` stand in for the source's NaN values
(`R < 0`, where `numpy.sqrt` of a negative yields NaN without raising) and
for its `ZeroDivisionError` (`R = 0`, where the scalar division
`(m1 + m2) / R ** 3` fails inside the field computation). -/
noncomputable def gravity_potential (m1 m2 R : ℝ)
    (xPoints yPoints : List (List ℝ)) : Except String (List (List ℝ)) :=
  if m1 ≤ 0 then .error msgNonPositiveM1
  else if m2 ≤ 0 then .error msgNonPositiveM2
  else if m2 > m1 then .error msgMassRatio
  else .ok (List.zipWith (fun xr yr => List.zipWith (fun x y => phi m1 m2 R x y) xr yr)
      xPoints yPoints)

/-- Modelled from the spec: the potential in the form the specification
states, `Φ(x, y) = -0.5*ω²*(x² + y²) - G*m1/d1 - G*m2/d2`, with the primary
of mass `m1` at `x1 = -m2*R/(m1+m2)` and the secondary of mass `m2` at
`x2 = +m1*R/(m1+m2)`.  Used only to compare the source formula against the
spec's formula. -/
noncomputable def phiSpec (m1 m2 R x y : ℝ) : ℝ :=
  let G : ℝ := 1
  let x1 : ℝ := -(m2 * R) / (m1 + m2)
  let x2 : ℝ := m1 * R / (m1 + m2)
  let omega : ℝ := Real.sqrt (G * (m1 + m2) / R ^ 3)
  let d1 : ℝ := Real.sqrt ((x - x1) ^ 2 + y ^ 2)
  let d2 : ℝ := Real.sqrt ((x - x2) ^ 2 + y ^ 2);
  -0.5 * omega ^ 2 * (x ^ 2 + y ^ 2) - G * m1 / d1 - G * m2 / d2

/-- Whether an evaluation succeeded (no `ValueError` raised). -/
def succeeds (r : Except String (List (List ℝ))) : Bool :=
  match r with
  | .ok _ => true
  | .error _ => false

/-- Two grids have the same rectangular shape: equally many rows, and
row `i` of each has the same length (out-of-range rows default to `[]`). -/
def sameShape (a b : List (List ℝ)) : Prop :=
  a.length = b.length ∧ ∀ i, (a.getD i []).length = (b.getD i []).length

/-- Value of the source formula at the configuration `m1 = 2`, `m2 = 1/2`,
`R = 1` and grid point `(0, 0)`: both gravitational terms carry `m2 = 1/2`,
giving `-(1/2)/(1/5) - (1/2)/(4/5) = -25/8 = -3.125`. -/
theorem phi_origin_eval : phi 2 (1/2) 1 0 0 = -(25/8) := by
  simp only [phi]
  rw [show (((1:ℝ)/2) * 1 / (2 + 1/2) - 0) ^ 2 + 0 ^ 2 = (1/5 : ℝ) ^ 2 by norm_num,
    show ((2:ℝ) * 1 / (2 + 1/2) + 0) ^ 2 + 0 ^ 2 = (4/5 : ℝ) ^ 2 by norm_num,
    Real.sqrt_sq (by norm_num : (0:ℝ) ≤ 1/5),
    Real.sqrt_sq (by norm_num : (0:ℝ) ≤ 4/5)]
  norm_num

/-- Value of the spec's formula at the same configuration and point:
`-2/(1/5) - (1/2)/(4/5) = -85/8 = -10.625`. -/
theorem phiSpec_origin_eval : phiSpec 2 (1/2) 1 0 0 = -(85/8) := by
  simp only [phiSpec]
  rw [show ((0:ℝ) - -(1/2 * 1) / (2 + 1/2)) ^ 2 + 0 ^ 2 = (1/5 : ℝ) ^ 2 by norm_num,
    show ((0:ℝ) - 2 * 1 / (2 + 1/2)) ^ 2 + 0 ^ 2 = (4/5 : ℝ) ^ 2 by norm_num,
    Real.sqrt_sq (by norm_num : (0:ℝ) ≤ 1/5),
    Real.sqrt_sq (by norm_num : (0:ℝ) ≤ 4/5)]
  norm_num

/-- C1: the claim states that the evaluator computes
`Φ(x,y) = -0.5·ω²·(x²+y²) - G·m1/d1 - G·m2/d2`, with the primary mass `m1`
weighting the term for the distance to the primary.  The source instead
weights both gravitational terms with `m2`, so at the validated
configuration `m1 = 2, m2 = 1/2, R = 1` and grid point `(0, 0)` the source
formula yields `-25/8 = -3.125` while the claimed formula yields
`-85/8 = -10.625`; the two disagree. -/
theorem phi_differs_from_spec_formula :
    phi 2 (1/2) 1 0 0 = -(25/8) ∧ phiSpec 2 (1/2) 1 0 0 = -(85/8) ∧
      phi 2 (1/2) 1 0 0 ≠ phiSpec 2 (1/2) 1 0 0 := by
  refine ⟨phi_origin_eval, phiSpec_origin_eval, ?_⟩
  rw [phi_origin_eval, phiSpec_origin_eval]
  norm_num

/-- C2: the claim states that for `m1 = 2, m2 = 0.5, R = 1` the evaluator's
value at the single grid point `(0, 0)` is `-10.625` within tolerance
`1e-9`.  The evaluator actually returns `-25/8 = -3.125` there, which
differs from `-10.625` by `7.5`, far beyond the claimed tolerance. -/
theorem evaluate_origin_value :
    gravity_potential 2 (1/2) 1 [[0]] [[0]] = .ok [[-(25/8)]] ∧
      |(-(25/8) : ℝ) - (-10.625)| > 1e-9 := by
  constructor
  · simp only [gravity_potential]
    rw [if_neg (by norm_num), if_neg (by norm_num), if_neg (by norm_num)]
    simp only [List.zipWith, phi_origin_eval]
  · rw [show (-(25/8) : ℝ) - (-10.625) = 7.5 by norm_num,
      abs_of_nonneg (by norm_num : (0:ℝ) ≤ 7.5)]
    norm_num

/-- C3 counterexample: `orbitalRadius = -1 ≤ 0` with otherwise valid masses
is not rejected by the validation phase: the call reaches the field
computation and returns a field (in the source, a NaN-filled array, since
`numpy.sqrt` of a negative argument yields NaN without raising), so no
`NonPositiveRadius` validation exists. -/
theorem negative_radius_not_rejected :
    ((-1:ℝ) ≤ 0) ∧ succeeds (gravity_potential 2 (1/2) (-1) [[0]] [[0]]) = true := by
  refine ⟨by norm_num, ?_⟩
  simp only [gravity_potential]
  rw [if_neg (by norm_num), if_neg (by norm_num), if_neg (by norm_num)]
  rfl

/-- C3 amended: the validation phase never inspects the radius — for every
`orbitalRadius < 0` with valid masses the configuration is not rejected and
the call returns a field.  (At `orbitalRadius = 0` the source instead fails
inside the field computation itself, dividing by `R ** 3 = 0`; that is a
computation-phase `ZeroDivisionError`, not a validation rejection, and lies
outside this total-real model.) -/
theorem no_radius_validation (m1 m2 R : ℝ) (xs ys : List (List ℝ))
    (h1 : 0 < m1) (h2 : 0 < m2) (h3 : m2 ≤ m1) (h4 : R < 0) :
    succeeds (gravity_potential m1 m2 R xs ys) = true := by
  simp only [gravity_potential]
  rw [if_neg (not_le.mpr h1), if_neg (not_le.mpr h2), if_neg (not_lt.mpr h3)]
  rfl

/-- Witness for `no_radius_validation` at `m1 = 2, m2 = 1/2, R = -1`. -/
theorem no_radius_validation_witness :
    succeeds (gravity_potential 2 (1/2) (-1) [[0]] [[0]]) = true :=
  no_radius_validation 2 (1/2) (-1) [[0]] [[0]] (by norm_num) (by norm_num) (by norm_num)
    (by norm_num)

/-- C4 counterexample: the error raised for `m1 = -1` is byte-for-byte the
error raised for `m1 = -5`, and the error raised for ratio `m2/m1 = 2` is
byte-for-byte the error raised for ratio `3`; the messages are fixed
strings, so they include neither the offending numeric value nor the
computed ratio. -/
theorem error_messages_identical_across_values :
    gravity_potential (-1) 1 1 [] [] = .error msgNonPositiveM1 ∧
      gravity_potential (-5) 1 1 [] [] = .error msgNonPositiveM1 ∧
      gravity_potential 1 2 1 [] [] = .error msgMassRatio ∧
      gravity_potential 1 3 1 [] [] = .error msgMassRatio := by
  refine ⟨?_, ?_, ?_, ?_⟩
  · simp only [gravity_potential]; rw [if_pos (by norm_num)]
  · simp only [gravity_potential]; rw [if_pos (by norm_num)]
  · simp only [gravity_potential]
    rw [if_neg (by norm_num), if_neg (by norm_num), if_pos (by norm_num)]
  · simp only [gravity_potential]
    rw [if_neg (by norm_num), if_neg (by norm_num), if_pos (by norm_num)]

/-- C4 amended: every validation failure is surfaced to the caller and its
message identifies which check failed (which mass was non-positive, or that
the ratio of `m2` to `m1` exceeded 1), but each message is a fixed string
that carries no numeric value — the source deliberately avoids string
formatting for numba compatibility. -/
theorem validation_error_messages (m1 m2 R : ℝ) (xs ys : List (List ℝ)) :
    (m1 ≤ 0 → gravity_potential m1 m2 R xs ys = .error msgNonPositiveM1) ∧
      (0 < m1 → m2 ≤ 0 → gravity_potential m1 m2 R xs ys = .error msgNonPositiveM2) ∧
      (0 < m1 → 0 < m2 → m1 < m2 → gravity_potential m1 m2 R xs ys = .error msgMassRatio) := by
  refine ⟨fun h => ?_, fun h1 h2 => ?_, fun h1 h2 h3 => ?_⟩
  · simp only [gravity_potential]; rw [if_pos h]
  · simp only [gravity_potential]; rw [if_neg (not_le.mpr h1), if_pos h2]
  · simp only [gravity_potential]
    rw [if_neg (not_le.mpr h1), if_neg (not_le.mpr h2), if_pos h3]

/-- Witness for `validation_error_messages` at `m1 = -1`. -/
theorem validation_error_messages_witness :
    gravity_potential (-1) 1 1 [[0]] [[0]] = .error msgNonPositiveM1 :=
  (validation_error_messages (-1) 1 1 [[0]] [[0]]).1 (by norm_num)

/-- C5: whenever `m1 ≤ 0` or `m2 ≤ 0` the call is rejected with one of the
two non-positive-mass errors before any field computation (the result is an
error, never a field). -/
theorem nonpositive_mass_rejected (m1 m2 R : ℝ) (xs ys : List (List ℝ))
    (h : m1 ≤ 0 ∨ m2 ≤ 0) :
    gravity_potential m1 m2 R xs ys = .error msgNonPositiveM1 ∨
      gravity_potential m1 m2 R xs ys = .error msgNonPositiveM2 := by
  by_cases h1 : m1 ≤ 0
  · left; simp only [gravity_potential]; rw [if_pos h1]
  · right
    have h2 : m2 ≤ 0 := h.resolve_left h1
    simp only [gravity_potential]
    rw [if_neg h1, if_pos h2]

/-- Witness for `nonpositive_mass_rejected` at `m1 = 0`. -/
theorem nonpositive_mass_rejected_witness :
    gravity_potential 0 1 1 [[0]] [[0]] = .error msgNonPositiveM1 ∨
      gravity_potential 0 1 1 [[0]] [[0]] = .error msgNonPositiveM2 :=
  nonpositive_mass_rejected 0 1 1 [[0]] [[0]] (Or.inl (by norm_num))

/-- C6 counterexample: `m1 = -1, m2 = 1` satisfies `m2 > m1`, yet the call
does not fail with the mass-ratio error — the non-positive-mass check runs
first and wins, so the claim's "whenever m2 > m1" is false as stated. -/
theorem ratio_error_skipped_when_m1_nonpositive :
    ((1:ℝ) > -1) ∧ gravity_potential (-1) 1 1 [] [] ≠ .error msgMassRatio := by
  refine ⟨by norm_num, ?_⟩
  have h : gravity_potential (-1) 1 1 [] [] = .error msgNonPositiveM1 := by
    simp only [gravity_potential]; rw [if_pos (by norm_num)]
  rw [h]
  simp [msgNonPositiveM1, msgMassRatio]

/-- C6 amended: validation fails with the mass-ratio error whenever
`m2 > m1` and both masses are positive (the non-positive-mass checks run
first); in particular it fails for `m1 = 1, m2 = 2`, and the call with
`m1 = 2, m2 = 0.5, orbitalRadius = 1` succeeds with no error. -/
theorem mass_ratio_check :
    (∀ (m1 m2 R : ℝ) (xs ys : List (List ℝ)), 0 < m1 → 0 < m2 → m1 < m2 →
        gravity_potential m1 m2 R xs ys = .error msgMassRatio) ∧
      (∀ xs ys : List (List ℝ), succeeds (gravity_potential 2 (1/2) 1 xs ys) = true) := by
  constructor
  · intro m1 m2 R xs ys h1 h2 h3
    simp only [gravity_potential]
    rw [if_neg (not_le.mpr h1), if_neg (not_le.mpr h2), if_pos h3]
  · intro xs ys
    simp only [gravity_potential]
    rw [if_neg (by norm_num), if_neg (by norm_num), if_neg (by norm_num)]
    rfl

/-- Witness for `mass_ratio_check` at `m1 = 1, m2 = 2`. -/
theorem mass_ratio_check_witness :
    gravity_potential 1 2 1 [[0]] [[0]] = .error msgMassRatio :=
  mass_ratio_check.1 1 2 1 [[0]] [[0]] (by norm_num) (by norm_num) (by norm_num)

/-- C7: for every valid configuration and every pair of equal-shape grids,
the evaluator succeeds and returns a field of exactly the input shape whose
entry `(i, j)` is `phi` applied to the configuration and the pair
`(xPoints[i][j], yPoints[i][j])` alone. -/
theorem evaluate_shape_and_pointwise (m1 m2 R : ℝ) (xs ys : List (List ℝ))
    (h1 : 0 < m1) (h2 : 0 < m2) (h3 : m2 ≤ m1) (hs : sameShape xs ys) :
    ∃ F, gravity_potential m1 m2 R xs ys = .ok F ∧ sameShape F xs ∧
      ∀ i j, i < F.length → j < (F.getD i []).length →
        (F.getD i []).getD j 0 =
          phi m1 m2 R ((xs.getD i []).getD j 0) ((ys.getD i []).getD j 0) := by
  refine ⟨List.zipWith (fun xr yr => List.zipWith (fun x y => phi m1 m2 R x y) xr yr) xs ys,
    ?_, ?_, ?_⟩
  · simp only [gravity_potential]
    rw [if_neg (not_le.mpr h1), if_neg (not_le.mpr h2), if_neg (not_lt.mpr h3)]
  · refine ⟨by rw [List.length_zipWith, ← hs.1, min_self], fun i => ?_⟩
    by_cases hi : i < xs.length
    · have hiy : i < ys.length := hs.1 ▸ hi
      have hiF : i <
          (List.zipWith (fun xr yr => List.zipWith (fun x y => phi m1 m2 R x y) xr yr)
            xs ys).length := by
        rw [List.length_zipWith, ← hs.1, min_self]; exact hi
      rw [List.getD_eq_getElem _ _ hiF, List.getD_eq_getElem _ _ hi]
      simp only [List.getElem_zipWith, List.length_zipWith]
      have hrow := hs.2 i
      rw [List.getD_eq_getElem _ _ hi, List.getD_eq_getElem _ _ hiy] at hrow
      rw [← hrow, min_self]
    · have hxs : xs.length ≤ i := not_lt.mp hi
      have hF :
          (List.zipWith (fun xr yr => List.zipWith (fun x y => phi m1 m2 R x y) xr yr)
            xs ys).length ≤ i := by
        rw [List.length_zipWith, ← hs.1, min_self]; exact hxs
      rw [List.getD_eq_default _ _ hF, List.getD_eq_default _ _ hxs]
  · intro i j hiF hj
    have hi : i < xs.length := by
      rw [List.length_zipWith, ← hs.1, min_self] at hiF; exact hiF
    have hiy : i < ys.length := hs.1 ▸ hi
    rw [List.getD_eq_getElem _ _ hiF] at hj ⊢
    simp only [List.getElem_zipWith] at hj ⊢
    rw [List.length_zipWith] at hj
    have hjx : j < (xs[i]).length := (lt_min_iff.mp hj).1
    have hjy : j < (ys[i]).length := (lt_min_iff.mp hj).2
    have hjz : j < (List.zipWith (fun x y => phi m1 m2 R x y) xs[i] ys[i]).length := by
      rw [List.length_zipWith]; exact hj
    rw [List.getD_eq_getElem _ _ hjz, List.getD_eq_getElem xs [] hi,
      List.getD_eq_getElem ys [] hiy, List.getD_eq_getElem _ _ hjx,
      List.getD_eq_getElem _ _ hjy, List.getElem_zipWith]

/-- Witness for `evaluate_shape_and_pointwise` at the concrete configuration
`m1 = 2, m2 = 1/2, R = 1` with the one-point grids `[[0]]`. -/
theorem evaluate_shape_and_pointwise_witness :
    ∃ F, gravity_potential 2 (1/2) 1 [[0]] [[0]] = .ok F ∧ sameShape F [[0]] ∧
      ∀ i j, i < F.length → j < (F.getD i []).length →
        (F.getD i []).getD j 0 =
          phi 2 (1/2) 1 (([[(0:ℝ)]].getD i []).getD j 0) (([[(0:ℝ)]].getD i []).getD j 0) :=
  evaluate_shape_and_pointwise 2 (1/2) 1 [[0]] [[0]] (by norm_num) (by norm_num)
    (by norm_num) ⟨rfl, fun i => rfl⟩

/-- C8: the source potential is symmetric under reflection about the
x-axis, `Φ(x, y) = Φ(x, -y)`, for every valid configuration, since the grid
coordinate `y` enters the formula only through `y ^ 2`. -/
theorem potential_reflection_symmetry (m1 m2 R x y : ℝ)
    (h1 : 0 < m1) (h2 : 0 < m2) (h3 : m2 ≤ m1) (h4 : 0 < R) :
    phi m1 m2 R x y = phi m1 m2 R x (-y) := by
  simp only [phi, neg_sq]

/-- Witness for `potential_reflection_symmetry` at `m1 = 2, m2 = 1/2,
R = 1, (x, y) = (1, 1)`. -/
theorem potential_reflection_symmetry_witness :
    phi 2 (1/2) 1 1 1 = phi 2 (1/2) 1 1 (-1) :=
  potential_reflection_symmetry 2 (1/2) 1 1 1 (by norm_num) (by norm_num)
    (by norm_num) (by norm_num)

/-- C10: the evaluator is deterministic — two calls with identical
arguments return identical results; the embedding is a pure function of its
five arguments, mirroring the source's freedom from shared mutable state. -/
theorem evaluator_deterministic (m1 m2 R : ℝ) (xs ys : List (List ℝ))
    (m1' m2' R' : ℝ) (xs' ys' : List (List ℝ))
    (h1 : m1 = m1') (h2 : m2 = m2') (h3 : R = R') (h4 : xs = xs') (h5 : ys = ys') :
    gravity_potential m1 m2 R xs ys = gravity_potential m1' m2' R' xs' ys' := by
  rw [h1, h2, h3, h4, h5]

/-- Witness for `evaluator_deterministic` at a concrete repeated call. -/
theorem evaluator_deterministic_witness :
    gravity_potential 2 (1/2) 1 [[0]] [[0]] = gravity_potential 2 (1/2) 1 [[0]] [[0]] :=
  evaluator_deterministic 2 (1/2) 1 [[0]] [[0]] 2 (1/2) 1 [[0]] [[0]] rfl rfl rfl rfl rfl

end RestrictedThreeBody
